import Mathlib

/-!
Verification development for the notebook
`Neural Network-Parameterized Transformed Distribution Model/skewt_notebook.ipynb`.

The notebook's computational core is embedded shallowly:
* the `APCSkewT` Keras model (two shared ReLU hidden layers, four linear
  output heads, an input `Normalization` layer) becomes a Lean structure of
  real-valued weight data with a pure `call` function;
* the `skew_t` TensorFlow-Probability construction becomes a small syntax of
  distributions and bijectors with a `forward` evaluator implementing the
  TFP semantics (a `Chain` applies its bijector list right-to-left);
* the training `step` becomes a pure state transformer parameterized by the
  gradient vector that TensorFlow's autodiff would produce;
* the data-loading / feature-engineering / training / diagnostics cells become
  an executable pipeline over a frame model that tracks the column names, the
  index, and the row count, with Python exceptions as `Except` errors;
* the technical-indicator columns (`ta` library calls) become explicit causal
  functions of the price series;
* the broken alias cell `tfd, tfb = tfp.distributions, tfb.bijectors` is
  settled against a tiny name-resolution semantics of Python assignments.

Real-valued definitions are `noncomputable` (they live on `ℝ`); everything at
the frame / pipeline / name-resolution level is computable so that concrete
runs evaluate by `decide` or `rfl`.
-/

/-! ### The APCSkewT network (notebook section 3) -/

/-- A Keras `Dense(1)` head (named `DenseUnit` because `Dense` is taken):
weight vector and bias; output `b + w · x`. -/
structure DenseUnit where
  w : List ℝ
  b : ℝ

/-- Apply a dense unit to an input vector, `b + Σ wᵢ xᵢ`. -/
noncomputable def DenseUnit.apply (d : DenseUnit) (x : List ℝ) : ℝ :=
  d.b + (List.zipWith (fun wi xi => wi * xi) d.w x).sum

/-- ReLU activation used by both hidden layers. -/
noncomputable def relu (x : ℝ) : ℝ := max x 0

/-- A dense layer with several units and an activation. -/
noncomputable def denseLayer (units : List DenseUnit) (act : ℝ → ℝ) (x : List ℝ) : List ℝ :=
  units.map (fun d => act (d.apply x))

/-- The `tf.keras.layers.Normalization` layer adapted to the features:
per-feature mean and variance; output `(xᵢ - meanᵢ) / sqrt varᵢ`. -/
structure NormLayer where
  mean : List ℝ
  var : List ℝ

/-- Apply the normalization layer feature-wise. -/
noncomputable def NormLayer.apply (n : NormLayer) (x : List ℝ) : List ℝ :=
  List.zipWith (fun xi mv => (xi - mv.1) / Real.sqrt mv.2) x (n.mean.zip n.var)

/-- The `APCSkewT` Keras model: the adapted normalization layer, two shared
hidden `Dense(hidden, relu)` layers (the `Sequential` called `f`), and the
four output heads `mu`, `log_s`, `skew_h`, `log_t`. -/
structure APCSkewT where
  norm : NormLayer
  f1 : List DenseUnit
  f2 : List DenseUnit
  mu : DenseUnit
  log_s : DenseUnit
  skew_h : DenseUnit
  log_t : DenseUnit

/-- The hidden representation fed to the four heads: normalize, then the two
ReLU layers. -/
noncomputable def APCSkewT.hidden (m : APCSkewT) (x : List ℝ) : List ℝ :=
  denseLayer m.f2 relu (denseLayer m.f1 relu (m.norm.apply x))

/-- `APCSkewT.call`: normalize the input, run the shared trunk, and return
`(mu h, exp (log_s h), 5 * tanh (skew_h h), exp (log_t h))`. -/
noncomputable def APCSkewT.call (m : APCSkewT) (x : List ℝ) : ℝ × ℝ × ℝ × ℝ :=
  let h := m.hidden x
  (m.mu.apply h,
   Real.exp (m.log_s.apply h),
   5 * Real.tanh (m.skew_h.apply h),
   Real.exp (m.log_t.apply h))

lemma abs_tanh_lt_one (x : ℝ) : |Real.tanh x| < 1 := by
  rw [Real.tanh_eq_sinh_div_cosh, abs_div, abs_of_pos (Real.cosh_pos (x := x)),
    div_lt_one (Real.cosh_pos (x := x))]
  have hsq := Real.cosh_sq x
  nlinarith [sq_abs (Real.sinh x), abs_nonneg (Real.sinh x),
    Real.cosh_pos (x := x)]

/-- Claim C1: for every input feature vector, `APCSkewT.call` returns a
four-tuple in which the scale is `exp` of a network output and strictly
positive, the tail-weight is `exp` of a network output and strictly positive,
and the skew equals `5 * tanh` of a network output and lies in `[-5, 5]`. -/
theorem C1_call_parameter_ranges (m : APCSkewT) (x : List ℝ) :
    (m.call x).2.1 = Real.exp (m.log_s.apply (m.hidden x)) ∧
    0 < (m.call x).2.1 ∧
    (m.call x).2.2.2 = Real.exp (m.log_t.apply (m.hidden x)) ∧
    0 < (m.call x).2.2.2 ∧
    (m.call x).2.2.1 = 5 * Real.tanh (m.skew_h.apply (m.hidden x)) ∧
    (m.call x).2.2.1 ∈ Set.Icc (-5 : ℝ) 5 := by
  refine ⟨rfl, Real.exp_pos _, rfl, Real.exp_pos _, rfl, ?_⟩
  have h := abs_tanh_lt_one (m.skew_h.apply (m.hidden x))
  rw [abs_lt] at h
  have hc : (m.call x).2.2.1 = 5 * Real.tanh (m.skew_h.apply (m.hidden x)) := rfl
  rw [hc, Set.mem_Icc]
  constructor <;> nlinarith [h.1, h.2]

/-! ### The skew_t distribution construction (notebook section 3) -/

/-- `tfd.StudentT(df, loc, scale)`. -/
structure StudentT where
  df : ℝ
  loc : ℝ
  scale : ℝ

/-- The TFP bijectors the notebook uses: `tfb.Shift`, `tfb.Scale`,
`tfb.SinhArcsinh(skewness, tailweight)`, and `tfb.Chain` of a list. -/
inductive Bij where
  | shift : ℝ → Bij
  | scale : ℝ → Bij
  | sinhArcsinh : ℝ → ℝ → Bij
  | chain : List Bij → Bij

/-- TFP forward semantics of the bijectors. `Shift(m)` is `x + m`, `Scale(s)`
is `s * x`, `SinhArcsinh(skewness, tailweight)` is
`sinh((arcsinh x + skewness) * tailweight)`, and `Chain [b₁, …, bₙ]` applies
its list right-to-left: `b₁ ∘ … ∘ bₙ`. -/
noncomputable def Bij.forward : Bij → ℝ → ℝ
  | .shift m, x => x + m
  | .scale s, x => s * x
  | .sinhArcsinh sk tl, x => Real.sinh ((Real.arsinh x + sk) * tl)
  | .chain [], x => x
  | .chain (b :: bs), x => b.forward (Bij.forward (.chain bs) x)

/-- `tfd.TransformedDistribution(base, bijector)` with a Student-t base. -/
structure TransformedDistribution where
  base : StudentT
  bijector : Bij

/-- The notebook's `skew_t(mu, sigma, skew, tail)`: a `StudentT(df=3, loc=0,
scale=1)` base transformed by
`Chain([Shift(mu), Scale(sigma), SinhArcsinh(skewness=skew, tailweight=tail)])`. -/
noncomputable def skew_t (mu sigma skew tail : ℝ) : TransformedDistribution :=
  { base := ⟨3, 0, 1⟩
    bijector := .chain [.shift mu, .scale sigma, .sinhArcsinh skew tail] }

/-- The transformation order the spec describes, as a direct function: first
the sinh-arcsinh map with the given skewness and tailweight, then scaling by
`sigma`, then shifting by `mu`. -/
noncomputable def specOrderedTransform (mu sigma skew tail x : ℝ) : ℝ :=
  mu + sigma * Real.sinh ((Real.arsinh x + skew) * tail)

/-- Claim C3: `skew_t(mu, sigma, skew, tail)` is a transformed distribution
whose base is a Student-t with 3 degrees of freedom, location 0 and scale 1,
and whose bijector applies, in order, the sinh-arcsinh map with the given
skewness and tailweight, then scaling by `sigma`, then shifting by `mu`. -/
theorem C3_skew_t_construction (mu sigma skew tail : ℝ) :
    (skew_t mu sigma skew tail).base = StudentT.mk 3 0 1 ∧
    ∀ x : ℝ, (skew_t mu sigma skew tail).bijector.forward x =
      specOrderedTransform mu sigma skew tail x := by
  refine ⟨rfl, fun x => ?_⟩
  simp only [skew_t, Bij.forward, specOrderedTransform]
  ring

/-! ### Target preparation and the training pairing (notebook section 2) -/

/-- `prepare_target(df, price_col, use_returns)`: with `use_returns` the
log-price first difference (row `t` holds `log p(t) - log p(t-1)`; `dropna`
removes the first row but keeps the day labels), otherwise the price column
itself, unshifted. The price series is indexed by day. -/
noncomputable def prepare_target (price : ℕ → ℝ) (use_returns : Bool) : ℕ → ℝ :=
  if use_returns then fun t => Real.log (price t) - Real.log (price (t - 1))
  else price

/-- The target value that the notebook pairs with the feature row of day `t`:
`y_raw = prepare_target(df_4_params, price_col="rolled_close",
use_returns=False)` and `X_raw` are taken row-by-row from the same frame, so
row `t` of `X_raw` is paired with row `t` of `y_raw`. -/
noncomputable def pairedTarget (price : ℕ → ℝ) (t : ℕ) : ℝ :=
  prepare_target price false t

/-- Claim C2 (refuted; the code pairs day `t` with day `t`'s own price): on
the concrete price series `p(t) = t`, the target paired with the feature row
of day 3 equals `p(3) = 3`, the same day's price, and differs from the next
day's price `p(4) = 4`. -/
theorem C2_pairing_uses_same_day_price :
    pairedTarget (fun t => (t : ℝ)) 3 = (fun t => (t : ℝ)) 3 ∧
    pairedTarget (fun t => (t : ℝ)) 3 ≠ (fun t => (t : ℝ)) (3 + 1) := by
  constructor
  · rfl
  · simp only [pairedTarget, prepare_target, Bool.false_eq_true, if_false]
    norm_num

/-! ### The training step (notebook section 4) -/

/-- The global norm of a gradient list: `sqrt (Σ gᵢ²)`, as in
`tf.clip_by_global_norm`. -/
noncomputable def globalNorm (gs : List ℝ) : ℝ :=
  Real.sqrt ((gs.map (fun g => g ^ 2)).sum)

/-- `tf.clip_by_global_norm(gs, clipNorm)` (first component): every entry is
scaled by `clipNorm / max (globalNorm gs) clipNorm`, so the list is unchanged
when its global norm is at most `clipNorm` and rescaled to global norm
`clipNorm` otherwise. -/
noncomputable def clip_by_global_norm (gs : List ℝ) (clipNorm : ℝ) : List ℝ :=
  gs.map (fun g => g * (clipNorm / max (globalNorm gs) clipNorm))

/-- State of the Adam optimizer: first- and second-moment estimates and the
step counter. -/
structure AdamState where
  m : List ℝ
  v : List ℝ
  t : ℕ

/-- One `apply_gradients` call of Adam (Keras defaults `beta_1 = 0.9`,
`beta_2 = 0.999`, `epsilon = 1e-7`): update the biased moments, correct the
bias, and move every parameter against its corrected gradient direction. -/
noncomputable def adamApply (lr beta1 beta2 eps : ℝ) (st : AdamState)
    (params gs : List ℝ) : AdamState × List ℝ :=
  let m1 := List.zipWith (fun mi gi => beta1 * mi + (1 - beta1) * gi) st.m gs
  let v1 := List.zipWith (fun vi gi => beta2 * vi + (1 - beta2) * gi ^ 2) st.v gs
  let tn := st.t + 1
  let upd := List.zipWith
    (fun mi vi => lr * (mi / (1 - beta1 ^ tn)) /
      (Real.sqrt (vi / (1 - beta2 ^ tn)) + eps)) m1 v1
  (⟨m1, v1, tn⟩, List.zipWith (fun p u => p - u) params upd)

/-- Result of one training `step`: the scalar loss, the gradient list passed
to `apply_gradients`, and the optimizer state and parameters after the
update. -/
structure StepResult where
  loss : ℝ
  applied : List ℝ
  adam : AdamState
  params : List ℝ

/-- The `@tf.function step(bx, by)` of the notebook, shallowly embedded.
`log_prob` is TFP's log-density evaluator for a transformed distribution
(library-provided), `bx`/`byv` are the feature rows and targets of the batch,
and `grads` is the gradient vector of the loss with respect to the trainable
variables that `tf.GradientTape` would return. The step computes the loss
`-reduce_mean(skew_t(model(bx)).log_prob(byv))`, clips `grads` with
`clip_by_global_norm(·, 2.)`, and hands the clipped list to the Adam
optimizer (`Adam(1e-3)`). -/
noncomputable def step (log_prob : TransformedDistribution → ℝ → ℝ)
    (model : APCSkewT) (bx : List (List ℝ)) (byv : List ℝ)
    (grads : List ℝ) (st : AdamState) (params : List ℝ) : StepResult :=
  let logps := List.zipWith (fun x y =>
      let p := model.call x
      log_prob (skew_t p.1 p.2.1 p.2.2.1 p.2.2.2) y) bx byv
  let loss := -(logps.sum / logps.length)
  let g := clip_by_global_norm grads 2
  let ap := adamApply (1 / 1000) (9 / 10) (999 / 1000) (1 / 10 ^ 7) st params g
  ⟨loss, g, ap.1, ap.2⟩

lemma globalNorm_nonneg (gs : List ℝ) : 0 ≤ globalNorm gs :=
  Real.sqrt_nonneg _

lemma sum_sq_smul (gs : List ℝ) (s : ℝ) :
    ((gs.map (fun g => g * s)).map (fun g => g ^ 2)).sum =
      s ^ 2 * (gs.map (fun g => g ^ 2)).sum := by
  induction gs with
  | nil => simp
  | cons a l ih =>
    simp only [List.map_cons, List.sum_cons, ih]
    ring

lemma globalNorm_smul (gs : List ℝ) (s : ℝ) :
    globalNorm (gs.map (fun g => g * s)) = |s| * globalNorm gs := by
  unfold globalNorm
  rw [sum_sq_smul, Real.sqrt_mul (sq_nonneg s), Real.sqrt_sq_eq_abs]

lemma globalNorm_clip_le (gs : List ℝ) :
    globalNorm (clip_by_global_norm gs 2) ≤ 2 := by
  have h0 : 0 ≤ globalNorm gs := globalNorm_nonneg gs
  have hmax : (0 : ℝ) < max (globalNorm gs) 2 :=
    lt_max_of_lt_right (by norm_num)
  unfold clip_by_global_norm
  rw [globalNorm_smul]
  rw [abs_of_pos (div_pos (by norm_num) hmax)]
  rw [div_mul_eq_mul_div, div_le_iff₀ hmax]
  have hle : globalNorm gs ≤ max (globalNorm gs) 2 := le_max_left _ _
  nlinarith

lemma clip_eq_self_of_le (gs : List ℝ) (h : globalNorm gs ≤ 2) :
    clip_by_global_norm gs 2 = gs := by
  unfold clip_by_global_norm
  rw [max_eq_right h]
  norm_num

/-- Claim C4: in every training step the loss is the negation of the
batch-mean log-density of the constructed skew-t distribution at the batch
targets, and the gradients are clipped to global norm 2 before the Adam
optimizer applies them: the applied list is `clip_by_global_norm grads 2`,
its global norm never exceeds 2, it coincides with `grads` whenever the raw
global norm is already at most 2, and the new parameters are exactly Adam's
update at the clipped gradients. -/
theorem C4_step_nll_and_clipping (log_prob : TransformedDistribution → ℝ → ℝ)
    (model : APCSkewT) (bx : List (List ℝ)) (byv : List ℝ)
    (grads : List ℝ) (st : AdamState) (params : List ℝ) :
    (step log_prob model bx byv grads st params).loss =
      -((List.zipWith (fun x y =>
          let p := model.call x
          log_prob (skew_t p.1 p.2.1 p.2.2.1 p.2.2.2) y) bx byv).sum /
        (List.zipWith (fun x y =>
          let p := model.call x
          log_prob (skew_t p.1 p.2.1 p.2.2.1 p.2.2.2) y) bx byv).length) ∧
    (step log_prob model bx byv grads st params).applied =
      clip_by_global_norm grads 2 ∧
    globalNorm (step log_prob model bx byv grads st params).applied ≤ 2 ∧
    (globalNorm grads ≤ 2 →
      (step log_prob model bx byv grads st params).applied = grads) ∧
    (step log_prob model bx byv grads st params).params =
      (adamApply (1 / 1000) (9 / 10) (999 / 1000) (1 / 10 ^ 7) st params
        (clip_by_global_norm grads 2)).2 := by
  refine ⟨rfl, rfl, globalNorm_clip_le grads, fun h => clip_eq_self_of_le grads h, rfl⟩

/-- Witness for C4 at a concrete instantiation: a model with empty layers, a
singleton batch, gradient list `[1, 1]` (global norm `sqrt 2 ≤ 2`), applying
the theorem and in particular its clipping-identity clause. -/
theorem C4_step_nll_and_clipping_witness :
    (step (fun _ _ => 0) ⟨⟨[], []⟩, [], [], ⟨[], 0⟩, ⟨[], 0⟩, ⟨[], 0⟩, ⟨[], 0⟩⟩
      [[0]] [0] [1, 1] ⟨[0, 0], [0, 0], 0⟩ [0, 0]).applied = [1, 1] := by
  have hnorm : globalNorm [(1 : ℝ), 1] ≤ 2 := by
    unfold globalNorm
    simp only [List.map_cons, List.map_nil, List.sum_cons, List.sum_nil]
    norm_num
    calc Real.sqrt 2 ≤ Real.sqrt 4 := by
          apply Real.sqrt_le_sqrt; norm_num
      _ = 2 := by
          rw [show (4 : ℝ) = 2 ^ 2 by norm_num, Real.sqrt_sq (by norm_num)]
  have h := (C4_step_nll_and_clipping (fun _ _ => 0)
    ⟨⟨[], []⟩, [], [], ⟨[], 0⟩, ⟨[], 0⟩, ⟨[], 0⟩, ⟨[], 0⟩⟩
    [[0]] [0] [1, 1] ⟨[0, 0], [0, 0], 0⟩ [0, 0]).2.2.2.1 hnorm
  exact h

/-! ### The data-loading pipeline (notebook section 2) and diagnostics guards

The notebook cells are embedded over a frame model that tracks the index
name, the column names and the row count. Python exceptions are `Except`
errors; a run of the notebook executes the cells in order and stops at the
first uncaught exception, as a run-all of the notebook does. -/

/-- The Python exceptions the pipeline can raise. -/
inductive PyError where
  | keyError : String → PyError
  | nameError : String → PyError
deriving DecidableEq

/-- A pandas frame, abstracted to its index name, column names and row
count. -/
structure Frame where
  indexName : Option String
  cols : List String
  nrows : ℕ
deriving DecidableEq

/-- `df.empty`: true when an axis has length zero. -/
def Frame.isEmpty (f : Frame) : Bool :=
  f.nrows == 0 || f.cols.isEmpty

/-- `df[c]` for reading: a `KeyError` when `c` is not a column. -/
def Frame.getCol (f : Frame) (c : String) : Except PyError Unit :=
  if c ∈ f.cols then .ok () else .error (.keyError c)

/-- `df.set_index(c)`: moves column `c` out of the columns into the index
(`KeyError` when absent). -/
def Frame.set_index (f : Frame) (c : String) : Except PyError Frame :=
  if c ∈ f.cols then
    .ok { indexName := some c, cols := f.cols.erase c, nrows := f.nrows }
  else .error (.keyError c)

/-- The console messages the cells print, as tags. -/
inductive Msg where
  | dataLoaded
  | csvNotFoundWarning
  | creatingDummyData
  | featuresCreated
  | missingRolledCloseError
  | skipPrep
  | skipTraining
  | skipQuantileFan
  | skipPit
  | epochLoss : ℕ → Msg
deriving DecidableEq

/-- Outcome of `pd.read_csv("matif_osr_futs.csv")`: the loaded frame, or the
`FileNotFoundError` the `try` block catches. -/
inductive ReadResult where
  | ok : Frame → ReadResult
  | fileNotFound : ReadResult

/-- The frame built in the `except FileNotFoundError` branch before
`set_index`: columns `date` and `rolled_close`, `n_samples = 1000` rows. -/
def dummyRawFrame : Frame :=
  { indexName := none, cols := ["date", "rolled_close"], nrows := 1000 }

/-- The dummy branch's `price_series = initial_price +
np.cumsum(np.random.normal(0, 5, n_samples))` with `initial_price = 500.0`:
given the normal draws `noise`, day `t` holds `500 + Σ_{i ≤ t} noise i`. -/
noncomputable def dummyPriceSeries (noise : ℕ → ℝ) (t : ℕ) : ℝ :=
  500 + ∑ i in Finset.range (t + 1), noise i

/-- The six feature columns `compute_technical_features` assigns, in
assignment order. -/
def featureCols : List String :=
  ["sma_20", "sma_50", "rsi_14", "atr_14", "bb_pct", "z_score"]

/-- Frame-level effect of `compute_technical_features`: `df.copy()` with the
six indicator columns assigned and `dropna()` applied. With an all-numeric
price column the rows dropped are exactly the 49-day warm-up prefix on which
`sma_50` (rolling window 50, `min_periods = 50`) is NaN, the largest NaN
prefix among the added columns. -/
def compute_technical_features_frame (f : Frame) : Frame :=
  { indexName := f.indexName, cols := f.cols ++ featureCols, nrows := f.nrows - 49 }

/-- The data-loading cell: on success, `pd.to_datetime(raw_df["date"])` then
`set_index("date")` and a success print; on `FileNotFoundError`, the two
warning prints, the dummy frame, and the same `set_index("date")`. -/
def loadCell (r : ReadResult) : Except PyError (List Msg × Frame) :=
  match r with
  | .ok f =>
    match f.getCol "date" with
    | .error e => .error e
    | .ok _ =>
      match f.set_index "date" with
      | .error e => .error e
      | .ok f1 => .ok ([.dataLoaded], f1)
  | .fileNotFound =>
    match dummyRawFrame.getCol "date" with
    | .error e => .error e
    | .ok _ =>
      match dummyRawFrame.set_index "date" with
      | .error e => .error e
      | .ok f1 => .ok ([.csvNotFoundWarning, .creatingDummyData], f1)

/-- The column guard: `df_4_params = compute_technical_features(raw_df)` when
`"rolled_close" in raw_df.columns`, otherwise the error print and
`df_4_params = pd.DataFrame()`. -/
def featureCell (raw_df : Frame) : List Msg × Frame :=
  if "rolled_close" ∈ raw_df.cols then
    ([.featuresCreated], compute_technical_features_frame raw_df)
  else
    ([.missingRolledCloseError], { indexName := none, cols := [], nrows := 0 })

/-- Sizes produced by the target/feature preparation guard
(`if not df_4_params.empty`): `y_raw`, `X_raw` (`.size` counts elements, six
features per row) and `y_z`, or zeros plus a skip message. -/
structure PrepResult where
  msgs : List Msg
  y_raw_size : ℕ
  x_raw_size : ℕ
  y_z_size : ℕ
deriving DecidableEq

/-- The target/feature preparation stage. -/
def prepCell (df : Frame) : PrepResult :=
  if !df.isEmpty then
    { msgs := [], y_raw_size := df.nrows, x_raw_size := df.nrows * 6,
      y_z_size := df.nrows }
  else
    { msgs := [.skipPrep], y_raw_size := 0, x_raw_size := 0, y_z_size := 0 }

/-- The training cell guard `if X_raw.size > 0 and y_z.size > 0`: 30 epochs
with a loss print each, or a skip message. -/
def trainCell (x_size y_z_size : ℕ) : List Msg × ℕ :=
  if x_size > 0 && y_z_size > 0 then
    ((List.range 30).map Msg.epochLoss, 30)
  else ([.skipTraining], 0)

/-- The quantile-fan diagnostics cell: under its guard it evaluates the model
and then plots against `df_4_params["date"]`, whose lookup can raise; the
boolean records whether the figure was shown. -/
def quantileFanCell (x_size y_z_size : ℕ) (df : Frame) :
    Except PyError (List Msg × Bool) :=
  if x_size > 0 && y_z_size > 0 && !df.isEmpty then
    match df.getCol "date" with
    | .error e => .error e
    | .ok _ => .ok ([], true)
  else .ok ([.skipQuantileFan], false)

/-- The PIT-histogram cell under the same guard. -/
def pitCell (x_size y_z_size : ℕ) (df : Frame) : List Msg × Bool :=
  if x_size > 0 && y_z_size > 0 && !df.isEmpty then ([], true)
  else ([.skipPit], false)

/-- Observable outcome of a full run: printed messages, the feature frame,
epochs trained, and which figures were shown. -/
structure RunResult where
  log : List Msg
  df_4_params : Frame
  trainedEpochs : ℕ
  quantileFanShown : Bool
  pitShown : Bool
deriving DecidableEq

/-- A top-to-bottom run of the notebook's data, training and diagnostics
cells. -/
def notebookRun (r : ReadResult) : Except PyError RunResult :=
  match loadCell r with
  | .error e => .error e
  | .ok (m1, raw_df) =>
    match featureCell raw_df with
    | (m2, df) =>
      let prep := prepCell df
      match trainCell prep.x_raw_size prep.y_z_size with
      | (m3, epochs) =>
        match quantileFanCell prep.x_raw_size prep.y_z_size df with
        | .error e => .error e
        | .ok (m4, qf) =>
          match pitCell prep.x_raw_size prep.y_z_size df with
          | (m5, pit) =>
            .ok ⟨m1 ++ m2 ++ prep.msgs ++ m3 ++ m4 ++ m5, df, epochs, qf, pit⟩

/-- Claim C5: a `FileNotFoundError` from `read_csv` is caught, the warning
is printed and the synthetic data substituted — a 1000-row frame whose
`rolled_close` column is the random walk `500 + cumsum(noise)` (so day 0
holds `500 + noise 0` and each later day adds one draw); and when the loaded
data lacks the `rolled_close` column the error message is printed,
`df_4_params` becomes the empty frame, and the target-preparation, training
and both diagnostics stages are all skipped through the emptiness guards,
the run ending normally rather than with an exception. -/
theorem C5_fallback_and_emptiness_guards :
    (loadCell .fileNotFound =
      .ok ([.csvNotFoundWarning, .creatingDummyData],
        ⟨some "date", ["rolled_close"], 1000⟩) ∧
     ∀ (noise : ℕ → ℝ) (t : ℕ),
       dummyPriceSeries noise (t + 1) =
         dummyPriceSeries noise t + noise (t + 1) ∧
       dummyPriceSeries noise 0 = 500 + noise 0) ∧
    ∀ f : Frame, "date" ∈ f.cols → "rolled_close" ∉ f.cols →
      notebookRun (.ok f) =
        .ok ⟨[.dataLoaded, .missingRolledCloseError, .skipPrep, .skipTraining,
              .skipQuantileFan, .skipPit], ⟨none, [], 0⟩, 0, false, false⟩ := by
  refine ⟨⟨rfl, fun noise t => ⟨?_, ?_⟩⟩, fun f h1 h2 => ?_⟩
  · unfold dummyPriceSeries
    rw [Finset.sum_range_succ]
    ring
  · unfold dummyPriceSeries
    rw [Finset.sum_range_one]
  · have hrc : "rolled_close" ∉ f.cols.erase "date" := fun hmem =>
      h2 (List.mem_of_mem_erase hmem)
    have hload : loadCell (.ok f) =
        .ok ([.dataLoaded], ⟨some "date", f.cols.erase "date", f.nrows⟩) := by
      simp only [loadCell, Frame.getCol, Frame.set_index, if_pos h1]
    have hfeat : featureCell ⟨some "date", f.cols.erase "date", f.nrows⟩ =
        ([.missingRolledCloseError], ⟨none, [], 0⟩) := by
      simp only [featureCell]
      rw [if_neg hrc]
    simp only [notebookRun, hload, hfeat]
    rfl

/-- Witness for C5 at a concrete frame: a loaded CSV with a `date` column and
a `close` column but no `rolled_close` column ends in the all-stages-skipped
run, by the theorem itself. -/
theorem C5_fallback_and_emptiness_guards_witness :
    notebookRun (.ok ⟨none, ["date", "close"], 120⟩) =
      .ok ⟨[.dataLoaded, .missingRolledCloseError, .skipPrep, .skipTraining,
            .skipQuantileFan, .skipPit], ⟨none, [], 0⟩, 0, false, false⟩ :=
  C5_fallback_and_emptiness_guards.2 ⟨none, ["date", "close"], 120⟩
    (by decide) (by decide)

/-- Claim C8 concerns the quantile-fan cell's `df_4_params["date"]` lookups.
They cannot succeed: `set_index("date")` moved `date` from the columns into
the index, so with non-empty data the guards all pass and the run aborts with
`KeyError: date` before any figure is shown — here evaluated on the
synthetic-data run (1000 rows), where `date` is indeed not among the feature
frame's columns. -/
theorem C8_quantile_fan_date_keyerror :
    notebookRun .fileNotFound = .error (.keyError "date") ∧
    "date" ∉ (compute_technical_features_frame
      ⟨some "date", ["rolled_close"], 1000⟩).cols := by
  exact ⟨rfl, by decide⟩

/-! ### The broken alias cell (notebook imports cell) -/

/-- The fragment of Python expressions the imports cell needs: name reads,
attribute access, and the two-element tuple of the right-hand side. -/
inductive PyExpr where
  | name : String → PyExpr
  | attr : PyExpr → String → PyExpr
  | pair : PyExpr → PyExpr → PyExpr

/-- Name-resolution semantics: evaluating an expression reads every name in
it left-to-right and raises `NameError` at the first unbound one. -/
def evalNames (env : List String) : PyExpr → Except PyError Unit
  | .name s => if s ∈ env then .ok () else .error (.nameError s)
  | .attr e _ => evalNames env e
  | .pair a b =>
    match evalNames env a with
    | .error e => .error e
    | .ok _ => evalNames env b

/-- The right-hand side of the setup assignment
`tfd, tfb = tfp.distributions, tfb.bijectors`. -/
def setupRHS : PyExpr :=
  .pair (.attr (.name "tfp") "distributions") (.attr (.name "tfb") "bijectors")

/-- The tuple assignment: Python evaluates the whole right-hand side before
binding any left-hand name, so the targets `tfd` and `tfb` are bound only
when the right-hand side evaluated without error. -/
def runSetupAssign (env : List String) : Except PyError (List String) :=
  match evalNames env setupRHS with
  | .ok _ => .ok ("tfd" :: "tfb" :: env)
  | .error e => .error e

/-- The names bound by the imports above the assignment:
`tf`, `tfp`, `np`, `pd`, `plt`, `ta`. -/
def importedEnv : List String := ["tf", "tfp", "np", "pd", "plt", "ta"]

/-- Claim C10: in any environment where `tfp` is bound but `tfb` is not —
in particular right after the cell's imports — the assignment
`tfd, tfb = tfp.distributions, tfb.bijectors` reads `tfb` before it has ever
been bound and raises `NameError`, so `tfb` is never defined. -/
theorem C10_setup_cell_nameerror :
    (∀ env : List String, "tfp" ∈ env → "tfb" ∉ env →
      runSetupAssign env = .error (.nameError "tfb")) ∧
    runSetupAssign importedEnv = .error (.nameError "tfb") ∧
    "tfb" ∉ importedEnv := by
  refine ⟨fun env h1 h2 => ?_, rfl, by decide⟩
  simp only [runSetupAssign, setupRHS, evalNames, if_pos h1, if_neg h2]

/-- Witness for C10: the general clause applied to the concrete
post-imports environment. -/
theorem C10_setup_cell_nameerror_witness :
    runSetupAssign ["tf", "tfp", "np", "pd", "plt", "ta"] =
      .error (.nameError "tfb") :=
  C10_setup_cell_nameerror.1 ["tf", "tfp", "np", "pd", "plt", "ta"]
    (by decide) (by decide)

/-! ### Quantile-fan monotonicity (notebook section 5) -/

/-- TFP `TransformedDistribution.quantile`: the bijector's forward map of the
base distribution's quantile. `baseQ` stands for the library's
`StudentT(df=3, loc=0, scale=1).quantile`. -/
noncomputable def transformedQuantile (d : TransformedDistribution)
    (baseQ : ℝ → ℝ) (p : ℝ) : ℝ :=
  d.bijector.forward (baseQ p)

/-- The diagnostics cell's five quantile values for one day:
`[dist.quantile(p) for p in [0.1, 0.25, 0.5, 0.75, 0.9]]` rescaled by
`* y_std + y_mean`. -/
noncomputable def rescaledQuantiles (mu sigma skew tail y_std y_mean : ℝ)
    (baseQ : ℝ → ℝ) : List ℝ :=
  [0.1, 0.25, 0.5, 0.75, 0.9].map
    (fun p => transformedQuantile (skew_t mu sigma skew tail) baseQ p * y_std + y_mean)

lemma skew_t_forward_eq (mu sigma skew tail x : ℝ) :
    (skew_t mu sigma skew tail).bijector.forward x =
      mu + sigma * Real.sinh ((Real.arsinh x + skew) * tail) := by
  simp only [skew_t, Bij.forward]
  ring

lemma skew_t_forward_mono (mu sigma skew tail : ℝ) (hs : 0 ≤ sigma)
    (ht : 0 ≤ tail) :
    Monotone ((skew_t mu sigma skew tail).bijector.forward) := by
  intro a b hab
  rw [skew_t_forward_eq, skew_t_forward_eq]
  have h1 : Real.arsinh a ≤ Real.arsinh b := Real.arsinh_le_arsinh.2 hab
  have h2 : (Real.arsinh a + skew) * tail ≤ (Real.arsinh b + skew) * tail :=
    mul_le_mul_of_nonneg_right (by linarith) ht
  have h3 := Real.sinh_le_sinh.2 h2
  have h4 := mul_le_mul_of_nonneg_left h3 hs
  linarith

/-- Claim C6: with the network's scale and tail-weight outputs positive, the
target standard deviation positive, and the base Student-t quantile function
monotone (a property of any quantile function), the five rescaled quantile
values at percentiles 0.1, 0.25, 0.5, 0.75, 0.9 are nondecreasing in the
percentile index. -/
theorem C6_quantile_fan_monotone (mu sigma skew tail y_std y_mean : ℝ)
    (baseQ : ℝ → ℝ) (hmono : Monotone baseQ)
    (hs : 0 < sigma) (ht : 0 < tail) (hy : 0 < y_std) :
    List.Chain' (fun a b => a ≤ b)
      (rescaledQuantiles mu sigma skew tail y_std y_mean baseQ) := by
  have key : ∀ p q : ℝ, p ≤ q →
      transformedQuantile (skew_t mu sigma skew tail) baseQ p * y_std + y_mean ≤
      transformedQuantile (skew_t mu sigma skew tail) baseQ q * y_std + y_mean := by
    intro p q hpq
    have h1 := skew_t_forward_mono mu sigma skew tail hs.le ht.le (hmono hpq)
    unfold transformedQuantile
    have h2 := mul_le_mul_of_nonneg_right h1 hy.le
    linarith
  simp only [rescaledQuantiles, List.map_cons, List.map_nil, List.chain'_cons,
    List.chain'_singleton, and_true]
  exact ⟨key _ _ (by norm_num), key _ _ (by norm_num), key _ _ (by norm_num),
    key _ _ (by norm_num)⟩

/-- Witness for C6: the identity as base quantile (monotone) with unit scale,
tail-weight and target deviation. -/
theorem C6_quantile_fan_monotone_witness :
    List.Chain' (fun a b => a ≤ b) (rescaledQuantiles 0 1 0 1 1 0 id) :=
  C6_quantile_fan_monotone 0 1 0 1 1 0 id monotone_id one_pos one_pos one_pos

/-! ### The technical features and their causality (compute_technical_features)

The `ta`-library indicator values are embedded as functions of the price
series `p : ℕ → ℝ` indexed by day. `dropna()` keeps only days past the
longest warm-up window (day 49 on), so every kept feature value has `t ≥ 1`
and all the windows it reads lie in the past. -/

/-- Rolling mean of the `w`-day window ending at day `t`
(`ta.trend.sma_indicator`, pandas `rolling(w).mean()`). -/
noncomputable def smaAt (w : ℕ) (p : ℕ → ℝ) (t : ℕ) : ℝ :=
  (∑ i in Finset.range w, p (t - i)) / w

/-- Rolling standard deviation over the `w`-day window ending at day `t`,
with `ddof` degrees-of-freedom correction (pandas `rolling(w).std()` has
`ddof = 1`; ta's Bollinger bands use `ddof = 0`). -/
noncomputable def rollingStd (w ddof : ℕ) (p : ℕ → ℝ) (t : ℕ) : ℝ :=
  Real.sqrt ((∑ i in Finset.range w, (p (t - i) - smaAt w p t) ^ 2) / (w - ddof))

/-- `ewm(alpha = 1/w, adjust=False).mean()` of a series (Wilder smoothing):
`y₀ = x₀`, `yₜ = (1 - 1/w) yₜ₋₁ + (1/w) xₜ`. -/
noncomputable def ewmWilder (w : ℕ) (x : ℕ → ℝ) : ℕ → ℝ
  | 0 => x 0
  | t + 1 => (1 - 1 / (w : ℝ)) * ewmWilder w x t + (1 / (w : ℝ)) * x (t + 1)

/-- Day-`t` gain of the differenced price series
(`close.diff(1).clip(lower=0)`). -/
noncomputable def gainAt (p : ℕ → ℝ) (t : ℕ) : ℝ := max (p t - p (t - 1)) 0

/-- Day-`t` loss of the differenced price series. -/
noncomputable def lossAt (p : ℕ → ℝ) (t : ℕ) : ℝ := max (p (t - 1) - p t) 0

/-- `ta.momentum.rsi(close, window=w)` at day `t ≥ 1`: Wilder-smoothed
average gain and average loss of the differenced series (which starts at day
1, so day `t` is its element `t - 1`), combined as `100 - 100 / (1 + rs)`. -/
noncomputable def rsiAt (w : ℕ) (p : ℕ → ℝ) (t : ℕ) : ℝ :=
  100 - 100 / (1 + ewmWilder w (fun i => gainAt p (i + 1)) (t - 1) /
    ewmWilder w (fun i => lossAt p (i + 1)) (t - 1))

/-- True range with `high = low = close = p`, as the notebook passes the
price column for all three: `|p t - p (t-1)|`. -/
noncomputable def trueRangeAt (p : ℕ → ℝ) (t : ℕ) : ℝ := |p t - p (t - 1)|

/-- `ta.volatility.average_true_range(window=w)` at day `t ≥ 1`: Wilder
smoothing of the true-range series (which starts at day 1). -/
noncomputable def atrAt (w : ℕ) (p : ℕ → ℝ) (t : ℕ) : ℝ :=
  ewmWilder w (fun i => trueRangeAt p (i + 1)) (t - 1)

/-- Bollinger %B (`bollinger_pband`, window `w`, `window_dev = dev`):
`(p t - lower) / (upper - lower)` with bands `sma ± dev * std` (ddof 0). -/
noncomputable def bbPctAt (w : ℕ) (dev : ℝ) (p : ℕ → ℝ) (t : ℕ) : ℝ :=
  (p t - (smaAt w p t - dev * rollingStd w 0 p t)) /
    ((smaAt w p t + dev * rollingStd w 0 p t) -
      (smaAt w p t - dev * rollingStd w 0 p t))

/-- The notebook's rolling z-score: `(p t - rolling mean) / rolling std`
over a 20-day window, pandas default `ddof = 1`. -/
noncomputable def zScoreAt (w : ℕ) (p : ℕ → ℝ) (t : ℕ) : ℝ :=
  (p t - smaAt w p t) / rollingStd w 1 p t

lemma smaAt_congr (w : ℕ) (p q : ℕ → ℝ) (t : ℕ)
    (h : ∀ i, i ≤ t → p i = q i) : smaAt w p t = smaAt w q t := by
  unfold smaAt
  congr 1
  exact Finset.sum_congr rfl (fun i _ => h (t - i) (Nat.sub_le t i))

lemma rollingStd_congr (w ddof : ℕ) (p q : ℕ → ℝ) (t : ℕ)
    (h : ∀ i, i ≤ t → p i = q i) :
    rollingStd w ddof p t = rollingStd w ddof q t := by
  have hs := smaAt_congr w p q t h
  unfold rollingStd
  congr 2
  refine Finset.sum_congr rfl (fun i _ => ?_)
  rw [h (t - i) (Nat.sub_le t i), hs]

lemma ewmWilder_congr (w : ℕ) (x y : ℕ → ℝ) (n : ℕ)
    (h : ∀ i, i ≤ n → x i = y i) : ewmWilder w x n = ewmWilder w y n := by
  induction n with
  | zero => simp only [ewmWilder, h 0 (le_refl 0)]
  | succ n ih =>
    simp only [ewmWilder]
    rw [h (n + 1) (le_refl _), ih (fun i hi => h i (Nat.le_succ_of_le hi))]

/-- Claim C7: `compute_technical_features` adds exactly the six columns
`sma_20`, `sma_50`, `rsi_14`, `atr_14`, `bb_pct`, `z_score` (in assignment
order), and each feature value at day `t` depends only on prices at days up
to and including `t`: two price series that agree through day `t` give
identical features at day `t`. (`t ≥ 1` covers every day a feature value
exists for — `dropna` keeps only days 49 on.) -/
theorem C7_six_causal_features (f : Frame) (p q : ℕ → ℝ) (t : ℕ)
    (hpq : ∀ i, i ≤ t → p i = q i) (ht : 1 ≤ t) :
    (compute_technical_features_frame f).cols =
      f.cols ++ ["sma_20", "sma_50", "rsi_14", "atr_14", "bb_pct", "z_score"] ∧
    smaAt 20 p t = smaAt 20 q t ∧
    smaAt 50 p t = smaAt 50 q t ∧
    rsiAt 14 p t = rsiAt 14 q t ∧
    atrAt 14 p t = atrAt 14 q t ∧
    bbPctAt 20 2 p t = bbPctAt 20 2 q t ∧
    zScoreAt 20 p t = zScoreAt 20 q t := by
  have hdiff : ∀ i, i ≤ t - 1 → (i + 1 ≤ t ∧ i ≤ t) := by omega
  have hg : ∀ i, i ≤ t - 1 → gainAt p (i + 1) = gainAt q (i + 1) := by
    intro i hi
    unfold gainAt
    rw [hpq (i + 1) (hdiff i hi).1, hpq ((i + 1) - 1) (by omega)]
  have hl : ∀ i, i ≤ t - 1 → lossAt p (i + 1) = lossAt q (i + 1) := by
    intro i hi
    unfold lossAt
    rw [hpq (i + 1) (hdiff i hi).1, hpq ((i + 1) - 1) (by omega)]
  have htr : ∀ i, i ≤ t - 1 → trueRangeAt p (i + 1) = trueRangeAt q (i + 1) := by
    intro i hi
    unfold trueRangeAt
    rw [hpq (i + 1) (hdiff i hi).1, hpq ((i + 1) - 1) (by omega)]
  refine ⟨rfl, smaAt_congr 20 p q t hpq, smaAt_congr 50 p q t hpq, ?_, ?_, ?_, ?_⟩
  · unfold rsiAt
    rw [ewmWilder_congr 14 _ _ (t - 1) hg, ewmWilder_congr 14 _ _ (t - 1) hl]
  · unfold atrAt
    rw [ewmWilder_congr 14 _ _ (t - 1) htr]
  · unfold bbPctAt
    rw [smaAt_congr 20 p q t hpq, rollingStd_congr 20 0 p q t hpq,
      hpq t (le_refl t)]
  · unfold zScoreAt
    rw [smaAt_congr 20 p q t hpq, rollingStd_congr 20 1 p q t hpq,
      hpq t (le_refl t)]

/-- Witness for C7: two equal constant price series at day 1 on a one-column
frame. -/
theorem C7_six_causal_features_witness :
    (compute_technical_features_frame ⟨none, ["rolled_close"], 100⟩).cols =
      ["rolled_close"] ++ ["sma_20", "sma_50", "rsi_14", "atr_14", "bb_pct", "z_score"] ∧
    smaAt 20 (fun _ => 0) 1 = smaAt 20 (fun _ => 0) 1 ∧
    smaAt 50 (fun _ => 0) 1 = smaAt 50 (fun _ => 0) 1 ∧
    rsiAt 14 (fun _ => 0) 1 = rsiAt 14 (fun _ => 0) 1 ∧
    atrAt 14 (fun _ => 0) 1 = atrAt 14 (fun _ => 0) 1 ∧
    bbPctAt 20 2 (fun _ => 0) 1 = bbPctAt 20 2 (fun _ => 0) 1 ∧
    zScoreAt 20 (fun _ => 0) 1 = zScoreAt 20 (fun _ => 0) 1 :=
  C7_six_causal_features ⟨none, ["rolled_close"], 100⟩ (fun _ => 0) (fun _ => 0) 1
    (fun _ _ => rfl) (le_refl 1)

/-! ### Parameter immutability outside training (notebook sections 4 and 5) -/

/-- The in-process state the notebook re-uses across epochs: the model's
weights and the optimizer state, plus the loss log. -/
structure TrainLoopState where
  model : APCSkewT
  adam : AdamState
  loss_log : List ℝ

/-- The two diagnostics cells: evaluate `model(X_raw)`, build the skew-t
distribution per day, compute the five rescaled quantiles (the quantile fan)
and the PIT values `dist.cdf(y_z)`. `baseQ` and `cdf` are the
library-provided base quantile and transformed-distribution CDF. The cells
only read the state. -/
noncomputable def diagnosticsCells (s : TrainLoopState) (X_raw : List (List ℝ))
    (baseQ : ℝ → ℝ) (cdf : TransformedDistribution → ℝ → ℝ) (y_z : List ℝ)
    (y_std y_mean : ℝ) : TrainLoopState × (List (List ℝ) × List ℝ) :=
  let params := X_raw.map s.model.call
  let qs := params.map (fun pr =>
    rescaledQuantiles pr.1 pr.2.1 pr.2.2.1 pr.2.2.2 y_std y_mean baseQ)
  let pit := List.zipWith (fun pr y =>
    cdf (skew_t pr.1 pr.2.1 pr.2.2.1 pr.2.2.2) y) params y_z
  (s, qs, pit)

/-- Claim C9: the diagnostics forward pass `model(X_raw)` leaves the model's
parameters (and the whole training state) unchanged and is repeatable with
identical outputs, while the parameters after a training step are exactly the
Adam optimizer's `apply_gradients` output at the clipped gradients — the only
way parameters change. -/
theorem C9_parameters_immutable_outside_training :
    (∀ (s : TrainLoopState) (X_raw : List (List ℝ)) (baseQ : ℝ → ℝ)
        (cdf : TransformedDistribution → ℝ → ℝ) (y_z : List ℝ)
        (y_std y_mean : ℝ),
      (diagnosticsCells s X_raw baseQ cdf y_z y_std y_mean).1 = s ∧
      (diagnosticsCells (diagnosticsCells s X_raw baseQ cdf y_z y_std y_mean).1
          X_raw baseQ cdf y_z y_std y_mean).2 =
        (diagnosticsCells s X_raw baseQ cdf y_z y_std y_mean).2) ∧
    (∀ (log_prob : TransformedDistribution → ℝ → ℝ) (model : APCSkewT)
        (bx : List (List ℝ)) (byv grads params : List ℝ) (st : AdamState),
      (step log_prob model bx byv grads st params).params =
        (adamApply (1 / 1000) (9 / 10) (999 / 1000) (1 / 10 ^ 7) st params
          (clip_by_global_norm grads 2)).2) :=
  ⟨fun _ _ _ _ _ _ _ => ⟨rfl, rfl⟩, fun _ _ _ _ _ _ _ => rfl⟩
